import Mathlib

/-!
# ChangeConfig (pkg/cluster/manager/change_config.go)

A shallow embedding of `Manager.ChangeConfig`.  The function is a straight-line
pipeline over collaborators that live outside the file (cluster name check,
metadata store, file system, YAML codec, immutable-field validator, diff
printer, confirmation prompt, error wrapping).  Every collaborator is a field
of `Env`; the durable world (metadata store, file system, operator) is an
explicit state `S` that only `SaveMeta` can change.  Every call the function
makes is appended to a trace, in program order, so that "is never called" and
"is called once, after the diff" are statements about that trace.
-/

namespace Manager

/-- A byte slice (`[]byte`); each element stands for one byte. -/
abbrev Bytes := List Nat

/-- Modelled from the spec: the `spec.Metadata` record behind the interface that
`m.meta` returns is declared outside this file.  Per the data model it carries a
Topology value plus bookkeeping fields that the pipeline treats as opaque
(user, version, ...), gathered here in `aux`. -/
structure Metadata (T A : Type) where
  Topology : T
  aux : A
  deriving DecidableEq, Repr

/-- Modelled from the spec: `metadata.GetTopology()`, the accessor of the
record's Topology (the method body is outside this file). -/
def Metadata.GetTopology {T A : Type} (m : Metadata T A) : T := m.Topology

/-- Modelled from the spec: `metadata.SetTopology(topo)`, "replace the
metadata's Topology with the candidate" (the method body is outside this
file). -/
def Metadata.SetTopology {T A : Type} (m : Metadata T A) (topo : T) : Metadata T A :=
  { m with Topology := topo }

/-- An argument of a formatted log line (`%v` of an error, `%s` of a string). -/
inductive LogArg (E : Type) where
  | err (e : E)
  | str (s : String)
  deriving DecidableEq, Repr

/-- One observable step of a run: a call to a collaborator (with its
arguments) or a line written to the terminal or the log. -/
inductive Event (E T A : Type) where
  | validateClusterName (name : String)
  | meta (name : String)
  | readFile (path : String)
  | unmarshalStrict (data : Bytes)
  | validateSpecDiff (orig cand : T)
  | marshal (topo : T)
  | showDiff (orig cand : Bytes)
  | promptForConfirm (msg : String)
  | setTopology (topo : T)
  | saveMeta (name : String) (metadata : Metadata T A)
  | print (s : String)
  | logInfof (fmt : String) (args : List (LogArg E))
  | logErrorf (fmt : String) (args : List (LogArg E))
  deriving DecidableEq, Repr

/-- The collaborators of `ChangeConfig`; none of them is defined in the file.
`E` is the type of non-nil Go errors (`Option E` is the Go type `error`), `T` the
topology, `A` the rest of a metadata record, `S` the durable world. -/
structure Env (E T A S : Type) where
  /-- The call `clusterutil.ValidateClusterNameOrError(name)`. -/
  ValidateClusterNameOrError : String → Option E
  /-- The call `m.meta(name)`: the loaded record together with the load error. -/
  meta : String → S → Metadata T A × Option E
  /-- The call `os.ReadFile(config)`. -/
  ReadFile : String → S → Except E Bytes
  /-- The call `m.specManager.NewMetadata()`. -/
  NewMetadata : Metadata T A
  /-- The call `yaml.UnmarshalStrict(newData, newTopo)`: the filled topology, or the parse error. -/
  UnmarshalStrict : Bytes → T → Except E T
  /-- The call `utils.ValidateSpecDiff(origTopo, newTopo)`. -/
  ValidateSpecDiff : T → T → Option E
  /-- The call `yaml.Marshal(origTopo)`. -/
  Marshal : T → Except E Bytes
  /-- The call `tui.PromptForConfirmOrAbortError(msg)`: nil on an affirmative answer. -/
  PromptForConfirmOrAbortError : String → S → Option E
  /-- The call `m.specManager.SaveMeta(name, metadata)`. -/
  SaveMeta : String → Metadata T A → S → Option E × S
  /-- The call `perrs.AddStack(err)` on a non-nil error. -/
  AddStack : E → E
  /-- The call `perrs.Annotate(err, msg)` on a non-nil error. -/
  Annotate : E → String → E
  /-- The call `perrs.Cause(err)`. -/
  Cause : E → E
  /-- The call `errors.Is(err, target)`. -/
  Is : E → E → Bool
  /-- The value `meta.ErrValidate`. -/
  ErrValidate : E
  /-- The call `color.RedString(s)`. -/
  RedString : String → String
  /-- The call `color.HiYellowString(s)`. -/
  HiYellowString : String → String
  /-- The call `tui.OsArgs0()`. -/
  OsArgs0 : String

/-- What a run leaves behind: the returned error (`none` is nil, success), the
local `metadata` record as it stands when the function returns (`none` when the
load was never reached), the durable world, and the trace of the run. -/
structure Outcome (E T A S : Type) where
  err : Option E
  metadata : Option (Metadata T A)
  world : S
  trace : List (Event E T A)

/-- The condition of line 40: `err != nil && !errors.Is(perrs.Cause(err), meta.ErrValidate)`. -/
def loadFatal {E T A S : Type} (env : Env E T A S) (err : Option E) : Bool :=
  match err with
  | some e => !env.Is (env.Cause e) env.ErrValidate
  | none => false

/-- The text of the confirmation prompt (line 83). -/
def confirmText : String :=
  "Please check change highlight above, do you want to apply the change? [y/N]:"

/-- The format of the final log line (line 96). -/
def appliedFmt : String :=
  "Applied successfully, please use `%s reload %s [-N <nodes>] [-R <roles>]` to reload config."

/-- The call `Manager.ChangeConfig(name, config, skipConfirm)` run in world `s`. -/
def ChangeConfig {E T A S : Type} (env : Env E T A S)
    (name config : String) (skipConfirm : Bool) (s : S) : Outcome E T A S :=
  let tr0 : List (Event E T A) := [Event.validateClusterName name]
  match env.ValidateClusterNameOrError name with
  | some err => ⟨some err, none, s, tr0⟩
  | none =>
    -- Get old metadata
    let tr1 := tr0 ++ [Event.meta name]
    let metadata := (env.meta name s).1
    let err := (env.meta name s).2
    if loadFatal env err then ⟨err, some metadata, s, tr1⟩
    else
      let origTopo := metadata.GetTopology
      -- Get new metadata from config file
      let tr2 := tr1 ++ [Event.readFile config]
      match env.ReadFile config s with
      | .error err => ⟨some (env.AddStack err), some metadata, s, tr2⟩
      | .ok newData =>
        let tr3 := tr2 ++ [Event.unmarshalStrict newData]
        match env.UnmarshalStrict newData env.NewMetadata.GetTopology with
        | .error err =>
          ⟨some (env.AddStack err), some metadata, s,
            tr3 ++ [Event.print (env.RedString "New topology could not be saved: "),
                    Event.logInfof "Failed to parse topology file: %v" [LogArg.err err],
                    Event.logInfof "Nothing changed." []]⟩
        | .ok newTopo =>
          -- report error if immutable field has been changed
          let tr4 := tr3 ++ [Event.validateSpecDiff origTopo newTopo]
          match env.ValidateSpecDiff origTopo newTopo with
          | some err =>
            ⟨some (env.AddStack err), some metadata, s,
              tr4 ++ [Event.print (env.RedString "New topology could not be saved: "),
                      Event.logErrorf "%s" [LogArg.err err],
                      Event.logInfof "Nothing changed." []]⟩
          | none =>
            let tr5 := tr4 ++ [Event.marshal origTopo]
            match env.Marshal origTopo with
            | .error err => ⟨some (env.AddStack err), some metadata, s, tr5⟩
            | .ok origData =>
              if origData = newData then
                ⟨none, some metadata, s, tr5 ++ [Event.logInfof "The file has nothing changed" []]⟩
              else
                let tr6 := tr5 ++ [Event.showDiff origData newData]
                let gate : Option E × List (Event E T A) :=
                  if !skipConfirm then
                    (env.PromptForConfirmOrAbortError (env.HiYellowString confirmText) s,
                      tr6 ++ [Event.promptForConfirm (env.HiYellowString confirmText)])
                  else (none, tr6)
                match gate.1 with
                | some err => ⟨some err, some metadata, s, gate.2⟩
                | none =>
                  let metadata2 := metadata.SetTopology newTopo
                  let tr7 := gate.2 ++ [Event.logInfof "Applying changes..." [],
                                        Event.setTopology newTopo,
                                        Event.saveMeta name metadata2]
                  match env.SaveMeta name metadata2 s with
                  | (some err, s2) =>
                    ⟨some (env.Annotate err "failed to save meta"), some metadata2, s2, tr7⟩
                  | (none, s2) =>
                    ⟨none, some metadata2, s2,
                      tr7 ++ [Event.logInfof appliedFmt [LogArg.str env.OsArgs0, LogArg.str name]]⟩

/-! ## Reading a trace -/

/-- The event is a call of `m.meta` (MetadataStore.Load). -/
def Event.isLoad {E T A : Type} : Event E T A → Bool
  | .meta _ => true
  | _ => false

/-- The event is a call of `os.ReadFile`. -/
def Event.isReadFile {E T A : Type} : Event E T A → Bool
  | .readFile _ => true
  | _ => false

/-- The event is a call of `utils.ValidateSpecDiff` (the immutable-field validator). -/
def Event.isValidate {E T A : Type} : Event E T A → Bool
  | .validateSpecDiff _ _ => true
  | _ => false

/-- The event is a call of `utils.ShowDiff` (the diff presenter). -/
def Event.isShowDiff {E T A : Type} : Event E T A → Bool
  | .showDiff _ _ => true
  | _ => false

/-- The event is a call of `tui.PromptForConfirmOrAbortError` (the confirmation gate). -/
def Event.isPrompt {E T A : Type} : Event E T A → Bool
  | .promptForConfirm _ => true
  | _ => false

/-- The event is a call of `metadata.SetTopology`. -/
def Event.isSetTopology {E T A : Type} : Event E T A → Bool
  | .setTopology _ => true
  | _ => false

/-- The event is a call of `m.specManager.SaveMeta` (MetadataStore.Save). -/
def Event.isSave {E T A : Type} : Event E T A → Bool
  | .saveMeta _ _ => true
  | _ => false

/-- How many events of a trace satisfy `p`. -/
def calls {E T A : Type} (p : Event E T A → Bool) (tr : List (Event E T A)) : Nat :=
  tr.countP p

/-- The calls to the diff presenter, the confirmation gate and Save, in the
order the run made them. -/
def commitSteps {E T A : Type} (tr : List (Event E T A)) : List (Event E T A) :=
  tr.filter (fun e => e.isShowDiff || e.isPrompt || e.isSave)

/-- The run gets past line 42: the cluster name is accepted and the load error,
if any, is tolerated. -/
def Loaded {E T A S : Type} (env : Env E T A S) (name : String) (s : S) : Prop :=
  env.ValidateClusterNameOrError name = none ∧
  loadFatal env (env.meta name s).2 = false

/-- The run gets past line 59: it is `Loaded`, the candidate file is read as
`newData` and strictly decoded as `newTopo`. -/
def Parsed {E T A S : Type} (env : Env E T A S) (name config : String) (s : S)
    (newData : Bytes) (newTopo : T) : Prop :=
  Loaded env name s ∧
  env.ReadFile config s = .ok newData ∧
  env.UnmarshalStrict newData env.NewMetadata.GetTopology = .ok newTopo

/-- The run gets as far as the byte comparison of line 74: it is `Parsed`, the
validator accepts the pair and the original topology encodes as `origData`. -/
def Compared {E T A S : Type} (env : Env E T A S) (name config : String) (s : S)
    (newData : Bytes) (newTopo : T) (origData : Bytes) : Prop :=
  Parsed env name config s newData newTopo ∧
  env.ValidateSpecDiff (env.meta name s).1.GetTopology newTopo = none ∧
  env.Marshal (env.meta name s).1.GetTopology = .ok origData

/-- The same collaborators, with a store whose load reports no error. -/
def Env.loadWithoutError {E T A S : Type} (env : Env E T A S) : Env E T A S :=
  { env with meta := fun n w => ((env.meta n w).1, none) }

/-! ## A small concrete instance -/

/-- Errors of the instance: base errors and the two wrappers. -/
inductive DemoErr where
  | invalidName
  | notFound
  | validate
  | readFailed
  | parse
  | immutable
  | aborted
  | saveFailed
  | withStack (e : DemoErr)
  | withMessage (e : DemoErr) (msg : String)
  deriving DecidableEq, Repr

/-- The innermost error under the wrappers. -/
def DemoErr.cause : DemoErr → DemoErr
  | .withStack e => e.cause
  | .withMessage e _ => e.cause
  | e => e

/-- A topology with one immutable field (`host`) and one mutable field (`conf`). -/
structure DemoTopo where
  host : Nat
  conf : Nat
  deriving DecidableEq, Repr

/-- The durable world of the instance: the stored record and the error its
load reports, the candidate file, the answer the operator would give, whether
the store accepts writes, and how many writes it has accepted. -/
structure DemoWorld where
  record : Option (Metadata DemoTopo Nat)
  loadErr : Option DemoErr
  file : Option Bytes
  answerYes : Bool
  writable : Bool
  writes : Nat
  deriving DecidableEq, Repr

/-- Strict decoding: two bytes, optionally followed by a line feed. -/
def demoDecode : Bytes → Except DemoErr DemoTopo
  | [h, c] => .ok ⟨h, c⟩
  | [h, c, 10] => .ok ⟨h, c⟩
  | _ => .error .parse

/-- The collaborators of the instance. -/
def demoEnv : Env DemoErr DemoTopo Nat DemoWorld where
  ValidateClusterNameOrError := fun n => if n.length = 0 then some .invalidName else none
  meta := fun _ w =>
    match w.record with
    | some m => (m, w.loadErr)
    | none => (⟨⟨0, 0⟩, 0⟩, some .notFound)
  ReadFile := fun _ w =>
    match w.file with
    | some b => .ok b
    | none => .error .readFailed
  NewMetadata := ⟨⟨0, 0⟩, 0⟩
  UnmarshalStrict := fun data _ => demoDecode data
  ValidateSpecDiff := fun o n => if o.host = n.host then none else some .immutable
  Marshal := fun t => .ok [t.host, t.conf]
  PromptForConfirmOrAbortError := fun _ w => if w.answerYes then none else some .aborted
  SaveMeta := fun _ m w =>
    if w.writable then
      (none, { w with record := some m, loadErr := none, writes := w.writes + 1 })
    else (some .saveFailed, w)
  AddStack := .withStack
  Annotate := .withMessage
  Cause := DemoErr.cause
  Is := fun a b => decide (a = b)
  ErrValidate := .validate
  RedString := id
  HiYellowString := id
  OsArgs0 := "tiup-cluster"

/-- The stored record of the instance: `host 1, conf 2`, bookkeeping value 7. -/
def demoRecord : Metadata DemoTopo Nat := ⟨⟨1, 2⟩, 7⟩

/-- A world holding `demoRecord`, a candidate file `bytes`, an operator who
answers `yes`, and a writable store that has accepted no write yet. -/
def demoWorld (bytes : Bytes) (yes : Bool) : DemoWorld :=
  ⟨some demoRecord, none, some bytes, yes, true, 0⟩

/-- The world `demoWorld bytes yes` whose load reports the error `e`. -/
def demoWorldLoadErr (e : DemoErr) (bytes : Bytes) (yes : Bool) : DemoWorld :=
  { demoWorld bytes yes with loadErr := some e }

/-- The world `demoWorld bytes yes` whose store refuses writes. -/
def demoWorldReadOnly (bytes : Bytes) (yes : Bool) : DemoWorld :=
  { demoWorld bytes yes with writable := false }

/-! ## Theorems -/

section Theorems

variable {E T A S : Type} (env : Env E T A S) (name config : String) (skipConfirm : Bool) (s : S)

/-- The values a `Compared` run works with are determined by the run. -/
theorem Compared.unique {nd nd1 : Bytes} {nt nt1 : T} {od od1 : Bytes}
    (h : Compared env name config s nd nt od) (h1 : Compared env name config s nd1 nt1 od1) :
    nd1 = nd ∧ nt1 = nt ∧ od1 = od := by
  obtain ⟨⟨_, hread, hdec⟩, _, henc⟩ := h
  obtain ⟨⟨_, hread1, hdec1⟩, _, henc1⟩ := h1
  rw [hread] at hread1
  cases hread1
  rw [hdec] at hdec1
  cases hdec1
  rw [henc] at henc1
  cases henc1
  exact ⟨rfl, rfl, rfl⟩

/-- A property of the values of some `Compared` run is a property of the values at hand. -/
theorem exists_compared_iff {nd : Bytes} {nt : T} {od : Bytes}
    (h : Compared env name config s nd nt od) (Q : Bytes → T → Bytes → Prop) :
    (∃ nd1 nt1 od1, Compared env name config s nd1 nt1 od1 ∧ Q nd1 nt1 od1) ↔ Q nd nt od := by
  constructor
  · rintro ⟨nd1, nt1, od1, h1, hq⟩
    obtain ⟨rfl, rfl, rfl⟩ := Compared.unique env name config s h h1
    exact hq
  · intro hq
    exact ⟨nd, nt, od, h, hq⟩

/-- A run that does not reach the byte comparison fails, writes nothing, and
calls neither the diff presenter, the confirmation gate, SetTopology nor Save;
it loads the metadata at most once, and once if the name is accepted. -/
theorem run_not_compared
    (hnc : ¬ ∃ nd nt od, Compared env name config s nd nt od) :
    (ChangeConfig env name config skipConfirm s).err ≠ none ∧
    (ChangeConfig env name config skipConfirm s).world = s ∧
    commitSteps (ChangeConfig env name config skipConfirm s).trace = [] ∧
    calls Event.isSetTopology (ChangeConfig env name config skipConfirm s).trace = 0 ∧
    calls Event.isLoad (ChangeConfig env name config skipConfirm s).trace ≤ 1 ∧
    (env.ValidateClusterNameOrError name = none →
      calls Event.isLoad (ChangeConfig env name config skipConfirm s).trace = 1) ∧
    calls Event.isSave (ChangeConfig env name config skipConfirm s).trace = 0 := by
  unfold ChangeConfig
  cases hname : env.ValidateClusterNameOrError name with
  | some e => simp [hname, commitSteps, calls, Event.isShowDiff, Event.isPrompt, Event.isSave,
      Event.isSetTopology, Event.isLoad]
  | none =>
  cases hload : loadFatal env (env.meta name s).2 with
  | true =>
    have hsome : (env.meta name s).2 ≠ none := by
      intro h
      simp [h, loadFatal] at hload
    simp [hname, hload, hsome, commitSteps, calls, Event.isShowDiff, Event.isPrompt, Event.isSave,
      Event.isSetTopology, Event.isLoad]
  | false =>
  cases hread : env.ReadFile config s with
  | error e => simp [hname, hload, hread, commitSteps, calls, Event.isShowDiff, Event.isPrompt, Event.isSave,
      Event.isSetTopology, Event.isLoad]
  | ok newData =>
  cases hdec : env.UnmarshalStrict newData env.NewMetadata.GetTopology with
  | error e => simp [hname, hload, hread, hdec, commitSteps, calls, Event.isShowDiff, Event.isPrompt, Event.isSave,
      Event.isSetTopology, Event.isLoad]
  | ok newTopo =>
  cases hval : env.ValidateSpecDiff (env.meta name s).1.GetTopology newTopo with
  | some e => simp [hname, hload, hread, hdec, hval, commitSteps, calls, Event.isShowDiff, Event.isPrompt,
      Event.isSave, Event.isSetTopology, Event.isLoad]
  | none =>
  cases henc : env.Marshal (env.meta name s).1.GetTopology with
  | error e => simp [hname, hload, hread, hdec, hval, henc, commitSteps, calls, Event.isShowDiff, Event.isPrompt,
      Event.isSave, Event.isSetTopology, Event.isLoad]
  | ok origData =>
    exact absurd ⟨newData, newTopo, origData, ⟨⟨hname, hload⟩, hread, hdec⟩, hval, henc⟩ hnc

/-- A `Compared` run whose bytes differ and whose confirmation is skipped or
affirmative applies `SaveMeta` to the loaded record carrying the candidate
topology: the world it leaves is the world `SaveMeta` returns, its error is the
error of `SaveMeta` annotated (nil stays nil), and the call is in the trace. -/
theorem run_commit {nd : Bytes} {nt : T} {od : Bytes}
    (hcmp : Compared env name config s nd nt od) (hne : od ≠ nd)
    (hpass : skipConfirm = true ∨
      env.PromptForConfirmOrAbortError (env.HiYellowString confirmText) s = none) :
    (ChangeConfig env name config skipConfirm s).world
      = (env.SaveMeta name ((env.meta name s).1.SetTopology nt) s).2 ∧
    (ChangeConfig env name config skipConfirm s).err
      = (env.SaveMeta name ((env.meta name s).1.SetTopology nt) s).1.map
          (fun e => env.Annotate e "failed to save meta") ∧
    (ChangeConfig env name config skipConfirm s).metadata
      = some ((env.meta name s).1.SetTopology nt) ∧
    Event.saveMeta name ((env.meta name s).1.SetTopology nt)
      ∈ (ChangeConfig env name config skipConfirm s).trace := by
  obtain ⟨⟨⟨hname, hload⟩, hread, hdec⟩, hval, henc⟩ := hcmp
  cases hsk : skipConfirm <;>
  cases hgate : env.PromptForConfirmOrAbortError (env.HiYellowString confirmText) s <;>
  rcases hsv : env.SaveMeta name ((env.meta name s).1.SetTopology nt) s with ⟨_ | e2, s2⟩ <;>
  simp [hsk, hgate] at hpass <;>
  simp [ChangeConfig, hname, hload, hread, hdec, hval, henc, hne, hgate, hsv]

/-- C1: when the immutable-field validator reports a violation `v` on the
original and the decoded candidate topology, ChangeConfig returns `AddStack v`
(the violation, wrapped), and the diff presenter, the confirmation gate and
Save are never called; the durable world and the loaded record are untouched.
Nothing is assumed about the candidate bytes, so this covers a candidate that
is byte-identical to the re-encoded original. -/
theorem validator_violation_is_fatal (newData : Bytes) (newTopo : T) (v : E)
    (hparsed : Parsed env name config s newData newTopo)
    (hval : env.ValidateSpecDiff (env.meta name s).1.GetTopology newTopo = some v) :
    (ChangeConfig env name config skipConfirm s).err = some (env.AddStack v) ∧
    calls Event.isSave (ChangeConfig env name config skipConfirm s).trace = 0 ∧
    calls Event.isShowDiff (ChangeConfig env name config skipConfirm s).trace = 0 ∧
    calls Event.isPrompt (ChangeConfig env name config skipConfirm s).trace = 0 ∧
    (ChangeConfig env name config skipConfirm s).world = s ∧
    (ChangeConfig env name config skipConfirm s).metadata = some (env.meta name s).1 := by
  obtain ⟨⟨hname, hload⟩, hread, hdec⟩ := hparsed
  simp [ChangeConfig, hname, hload, hread, hdec, hval, calls, Event.isSave, Event.isShowDiff,
    Event.isPrompt]

/-- Witness of C1: the candidate file changes the immutable `host` from 1 to 5. -/
theorem validator_violation_is_fatal_witness :
    Parsed demoEnv "c" "topo.yaml" (demoWorld [5, 2] true) [5, 2] ⟨5, 2⟩ ∧
    (ChangeConfig demoEnv "c" "topo.yaml" false (demoWorld [5, 2] true)).err
      = some (DemoErr.withStack DemoErr.immutable) ∧
    calls Event.isSave (ChangeConfig demoEnv "c" "topo.yaml" false (demoWorld [5, 2] true)).trace = 0 :=
  have h := validator_violation_is_fatal demoEnv "c" "topo.yaml" false (demoWorld [5, 2] true)
    [5, 2] ⟨5, 2⟩ DemoErr.immutable ⟨⟨rfl, rfl⟩, rfl, rfl⟩ rfl
  ⟨⟨⟨rfl, rfl⟩, rfl, rfl⟩, h.1, h.2.1⟩

/-- C2: with skipConfirm=false, when the run reaches the confirmation step
(it is `Compared` and the re-encoded original differs from the candidate
bytes) and the confirmation gate returns the error `e`, ChangeConfig returns
exactly `e`, Save is never called, SetTopology is never called, the local
record is still the loaded one and the durable world is unchanged. -/
theorem declined_confirmation_cancels (newData : Bytes) (newTopo : T) (origData : Bytes) (e : E)
    (hcmp : Compared env name config s newData newTopo origData)
    (hne : origData ≠ newData)
    (hgate : env.PromptForConfirmOrAbortError (env.HiYellowString confirmText) s = some e) :
    (ChangeConfig env name config false s).err = some e ∧
    calls Event.isSave (ChangeConfig env name config false s).trace = 0 ∧
    calls Event.isSetTopology (ChangeConfig env name config false s).trace = 0 ∧
    (ChangeConfig env name config false s).metadata = some (env.meta name s).1 ∧
    (ChangeConfig env name config false s).world = s := by
  obtain ⟨⟨⟨hname, hload⟩, hread, hdec⟩, hval, henc⟩ := hcmp
  simp [ChangeConfig, hname, hload, hread, hdec, hval, henc, hne, hgate, calls, Event.isSave,
    Event.isSetTopology]

/-- Witness of C2: the candidate changes `conf` and the operator answers no. -/
theorem declined_confirmation_cancels_witness :
    Compared demoEnv "c" "topo.yaml" (demoWorld [1, 3] false) [1, 3] ⟨1, 3⟩ [1, 2] ∧
    (ChangeConfig demoEnv "c" "topo.yaml" false (demoWorld [1, 3] false)).err
      = some DemoErr.aborted ∧
    calls Event.isSave (ChangeConfig demoEnv "c" "topo.yaml" false (demoWorld [1, 3] false)).trace = 0 :=
  have h := declined_confirmation_cancels demoEnv "c" "topo.yaml" (demoWorld [1, 3] false)
    [1, 3] ⟨1, 3⟩ [1, 2] DemoErr.aborted ⟨⟨⟨rfl, rfl⟩, rfl, rfl⟩, rfl, rfl⟩ (by decide) rfl
  ⟨⟨⟨⟨rfl, rfl⟩, rfl, rfl⟩, rfl, rfl⟩, h.1, h.2.1⟩

/-- C3: when the run is `Compared` and the re-encoding of the original topology
is byte-identical to the candidate bytes, ChangeConfig returns success and the
diff presenter, the confirmation gate, SetTopology and Save are never called,
for either value of skipConfirm; the durable world is unchanged. -/
theorem identical_candidate_is_noop (newData : Bytes) (newTopo : T)
    (hcmp : Compared env name config s newData newTopo newData) :
    (ChangeConfig env name config skipConfirm s).err = none ∧
    calls Event.isShowDiff (ChangeConfig env name config skipConfirm s).trace = 0 ∧
    calls Event.isPrompt (ChangeConfig env name config skipConfirm s).trace = 0 ∧
    calls Event.isSave (ChangeConfig env name config skipConfirm s).trace = 0 ∧
    calls Event.isSetTopology (ChangeConfig env name config skipConfirm s).trace = 0 ∧
    (ChangeConfig env name config skipConfirm s).world = s := by
  obtain ⟨⟨⟨hname, hload⟩, hread, hdec⟩, hval, henc⟩ := hcmp
  simp [ChangeConfig, hname, hload, hread, hdec, hval, henc, calls, Event.isSave,
    Event.isSetTopology, Event.isShowDiff, Event.isPrompt]

/-- Witness of C3: the candidate file is the encoding of the stored topology. -/
theorem identical_candidate_is_noop_witness :
    Compared demoEnv "c" "topo.yaml" (demoWorld [1, 2] false) [1, 2] ⟨1, 2⟩ [1, 2] ∧
    (ChangeConfig demoEnv "c" "topo.yaml" false (demoWorld [1, 2] false)).err = none ∧
    calls Event.isPrompt (ChangeConfig demoEnv "c" "topo.yaml" false (demoWorld [1, 2] false)).trace = 0 ∧
    calls Event.isSave (ChangeConfig demoEnv "c" "topo.yaml" false (demoWorld [1, 2] false)).trace = 0 :=
  have h := identical_candidate_is_noop demoEnv "c" "topo.yaml" false (demoWorld [1, 2] false)
    [1, 2] ⟨1, 2⟩ ⟨⟨⟨rfl, rfl⟩, rfl, rfl⟩, rfl, rfl⟩
  ⟨⟨⟨⟨rfl, rfl⟩, rfl, rfl⟩, rfl, rfl⟩, h.1, h.2.2.1, h.2.2.2.1⟩

/-- C5: with skipConfirm=true, when the run is `Compared` and the re-encoded
original differs from the candidate bytes, the confirmation gate is never
invoked, and the calls to the diff presenter, the gate and Save are exactly:
the diff of (re-encoded original, candidate bytes), then one Save of the
loaded record with the candidate topology under the given name.  The Save is
really made: the run leaves the world that `SaveMeta` returns for that record,
holds that record as its local metadata, and returns the error of `SaveMeta`
annotated (nil when `SaveMeta` returns nil). -/
theorem skip_confirm_saves_after_diff (newData : Bytes) (newTopo : T) (origData : Bytes)
    (hcmp : Compared env name config s newData newTopo origData)
    (hne : origData ≠ newData) :
    calls Event.isPrompt (ChangeConfig env name config true s).trace = 0 ∧
    calls Event.isShowDiff (ChangeConfig env name config true s).trace = 1 ∧
    calls Event.isSave (ChangeConfig env name config true s).trace = 1 ∧
    commitSteps (ChangeConfig env name config true s).trace
      = [Event.showDiff origData newData,
         Event.saveMeta name ((env.meta name s).1.SetTopology newTopo)] ∧
    (ChangeConfig env name config true s).world
      = (env.SaveMeta name ((env.meta name s).1.SetTopology newTopo) s).2 ∧
    (ChangeConfig env name config true s).err
      = (env.SaveMeta name ((env.meta name s).1.SetTopology newTopo) s).1.map
          (fun e => env.Annotate e "failed to save meta") ∧
    (ChangeConfig env name config true s).metadata
      = some ((env.meta name s).1.SetTopology newTopo) := by
  obtain ⟨⟨⟨hname, hload⟩, hread, hdec⟩, hval, henc⟩ := hcmp
  rcases hsv : env.SaveMeta name ((env.meta name s).1.SetTopology newTopo) s with ⟨_ | e, s2⟩ <;>
  simp [ChangeConfig, hname, hload, hread, hdec, hval, henc, hne, hsv, calls, commitSteps,
    Event.isSave, Event.isShowDiff, Event.isPrompt]

/-- Witness of C5: the candidate changes `conf`; the operator, who would have
answered no, is never asked; the store ends up holding the candidate, after
one write, and the run succeeds. -/
theorem skip_confirm_saves_after_diff_witness :
    Compared demoEnv "c" "topo.yaml" (demoWorld [1, 3] false) [1, 3] ⟨1, 3⟩ [1, 2] ∧
    commitSteps (ChangeConfig demoEnv "c" "topo.yaml" true (demoWorld [1, 3] false)).trace
      = [Event.showDiff [1, 2] [1, 3], Event.saveMeta "c" ⟨⟨1, 3⟩, 7⟩] ∧
    (ChangeConfig demoEnv "c" "topo.yaml" true (demoWorld [1, 3] false)).world
      = ⟨some ⟨⟨1, 3⟩, 7⟩, none, some [1, 3], false, true, 1⟩ ∧
    (ChangeConfig demoEnv "c" "topo.yaml" true (demoWorld [1, 3] false)).err = none :=
  have h := skip_confirm_saves_after_diff demoEnv "c" "topo.yaml" (demoWorld [1, 3] false)
    [1, 3] ⟨1, 3⟩ [1, 2] ⟨⟨⟨rfl, rfl⟩, rfl, rfl⟩, rfl, rfl⟩ (by decide)
  ⟨⟨⟨⟨rfl, rfl⟩, rfl, rfl⟩, rfl, rfl⟩, h.2.2.2.1, h.2.2.2.2.1, h.2.2.2.2.2.1⟩

/-- C6: when the run is `Loaded`, the candidate file is read, and its strict
decoding fails with `perr`, ChangeConfig returns `AddStack perr` (the parse
error, wrapped), the local record is the loaded one, the durable world is
unchanged, and the validator, the diff presenter, the confirmation gate,
SetTopology and Save are never called. -/
theorem parse_failure_changes_nothing (newData : Bytes) (perr : E)
    (hloaded : Loaded env name s)
    (hread : env.ReadFile config s = .ok newData)
    (hdec : env.UnmarshalStrict newData env.NewMetadata.GetTopology = .error perr) :
    (ChangeConfig env name config skipConfirm s).err = some (env.AddStack perr) ∧
    (ChangeConfig env name config skipConfirm s).metadata = some (env.meta name s).1 ∧
    (ChangeConfig env name config skipConfirm s).world = s ∧
    calls Event.isValidate (ChangeConfig env name config skipConfirm s).trace = 0 ∧
    calls Event.isShowDiff (ChangeConfig env name config skipConfirm s).trace = 0 ∧
    calls Event.isPrompt (ChangeConfig env name config skipConfirm s).trace = 0 ∧
    calls Event.isSetTopology (ChangeConfig env name config skipConfirm s).trace = 0 ∧
    calls Event.isSave (ChangeConfig env name config skipConfirm s).trace = 0 := by
  obtain ⟨hname, hload⟩ := hloaded
  simp [ChangeConfig, hname, hload, hread, hdec, calls, Event.isSave, Event.isValidate,
    Event.isSetTopology, Event.isShowDiff, Event.isPrompt]

/-- Witness of C6: a one-byte candidate file does not decode. -/
theorem parse_failure_changes_nothing_witness :
    Loaded demoEnv "c" (demoWorld [9] true) ∧
    (ChangeConfig demoEnv "c" "topo.yaml" true (demoWorld [9] true)).err
      = some (DemoErr.withStack DemoErr.parse) ∧
    (ChangeConfig demoEnv "c" "topo.yaml" true (demoWorld [9] true)).metadata = some demoRecord ∧
    (ChangeConfig demoEnv "c" "topo.yaml" true (demoWorld [9] true)).world = demoWorld [9] true :=
  have h := parse_failure_changes_nothing demoEnv "c" "topo.yaml" true (demoWorld [9] true)
    [9] DemoErr.parse ⟨rfl, rfl⟩ rfl rfl
  ⟨⟨rfl, rfl⟩, h.1, h.2.1, h.2.2.1⟩

/-- C8: when the cluster name is accepted and the load returns the error `e`:
if the cause of `e` is not the validation error, ChangeConfig returns `e`
itself and the candidate file is not read, and the validator, the diff
presenter, the confirmation gate and Save are not called; if the cause of `e`
is the validation error, the candidate file is read and the whole outcome
(returned error, local record, durable world, trace) is the outcome of the same
run against a store that returns the same record without an error. -/
theorem load_error_policy (e : E)
    (hname : env.ValidateClusterNameOrError name = none)
    (herr : (env.meta name s).2 = some e) :
    (env.Is (env.Cause e) env.ErrValidate = false →
      (ChangeConfig env name config skipConfirm s).err = some e ∧
      calls Event.isReadFile (ChangeConfig env name config skipConfirm s).trace = 0 ∧
      calls Event.isValidate (ChangeConfig env name config skipConfirm s).trace = 0 ∧
      calls Event.isShowDiff (ChangeConfig env name config skipConfirm s).trace = 0 ∧
      calls Event.isPrompt (ChangeConfig env name config skipConfirm s).trace = 0 ∧
      calls Event.isSave (ChangeConfig env name config skipConfirm s).trace = 0 ∧
      (ChangeConfig env name config skipConfirm s).world = s) ∧
    (env.Is (env.Cause e) env.ErrValidate = true →
      calls Event.isReadFile (ChangeConfig env name config skipConfirm s).trace = 1 ∧
      ChangeConfig env name config skipConfirm s
        = ChangeConfig env.loadWithoutError name config skipConfirm s) := by
  constructor
  · intro hcause
    simp [ChangeConfig, hname, herr, loadFatal, hcause, calls, Event.isReadFile, Event.isValidate,
      Event.isShowDiff, Event.isPrompt, Event.isSave]
  · intro hcause
    have hfatal : loadFatal env (env.meta name s).2 = false := by
      simp [loadFatal, herr, hcause]
    constructor
    · unfold ChangeConfig
      cases hread : env.ReadFile config s with
      | error e1 => simp [hname, hfatal, hread, calls, Event.isReadFile]
      | ok newData =>
      cases hdec : env.UnmarshalStrict newData env.NewMetadata.GetTopology with
      | error e1 => simp [hname, hfatal, hread, hdec, calls, Event.isReadFile]
      | ok newTopo =>
      cases hval : env.ValidateSpecDiff (env.meta name s).1.GetTopology newTopo with
      | some e1 => simp [hname, hfatal, hread, hdec, hval, calls, Event.isReadFile]
      | none =>
      cases henc : env.Marshal (env.meta name s).1.GetTopology with
      | error e1 => simp [hname, hfatal, hread, hdec, hval, henc, calls, Event.isReadFile]
      | ok origData =>
      by_cases heq : origData = newData
      · simp [hname, hfatal, hread, hdec, hval, henc, heq, calls, Event.isReadFile]
      · cases hsk : skipConfirm <;>
        cases hgate : env.PromptForConfirmOrAbortError (env.HiYellowString confirmText) s <;>
        rcases hsv : env.SaveMeta name ((env.meta name s).1.SetTopology newTopo) s
          with ⟨_ | e2, s2⟩ <;>
        simp [hname, hfatal, hread, hdec, hval, henc, heq, hgate, hsv, calls, Event.isReadFile]
    · have hname2 : env.loadWithoutError.ValidateClusterNameOrError name = none := hname
      have hfatal2 : loadFatal env.loadWithoutError (env.loadWithoutError.meta name s).2 = false :=
        rfl
      unfold ChangeConfig
      simp only [hname, hname2, hfatal, hfatal2]
      rfl

/-- Witness of C8: a load failing with "not found" stops the run; a load failing
with a wrapped validation error runs like a load without error. -/
theorem load_error_policy_witness :
    (ChangeConfig demoEnv "c" "topo.yaml" true
        (demoWorldLoadErr DemoErr.notFound [1, 3] true)).err = some DemoErr.notFound ∧
    ChangeConfig demoEnv "c" "topo.yaml" true
        (demoWorldLoadErr (DemoErr.withStack DemoErr.validate) [1, 3] true)
      = ChangeConfig demoEnv.loadWithoutError "c" "topo.yaml" true
        (demoWorldLoadErr (DemoErr.withStack DemoErr.validate) [1, 3] true) :=
  ⟨((load_error_policy demoEnv "c" "topo.yaml" true
        (demoWorldLoadErr DemoErr.notFound [1, 3] true) DemoErr.notFound rfl rfl).1 rfl).1,
   ((load_error_policy demoEnv "c" "topo.yaml" true
        (demoWorldLoadErr (DemoErr.withStack DemoErr.validate) [1, 3] true)
        (DemoErr.withStack DemoErr.validate) rfl rfl).2 rfl).2⟩

/-- C9: ChangeConfig returns success exactly when the run is `Compared` (name
accepted, load error absent or tolerated, read, decode, validation and
re-encoding succeeded) and then either the candidate bytes equal the re-encoded
original, or the confirmation is skipped or affirmative and Save of the updated
record returns success.  Moreover, whenever a Save made by the run fails with
`e`, ChangeConfig returns `Annotate e "failed to save meta"`: this holds for
every Save call in the trace, and on the path itself, where a `Compared` run
with differing bytes and a skipped or affirmative confirmation whose `SaveMeta`
returns `e` returns that annotated error and leaves the world `SaveMeta`
returned.  The failures before the commit surface their cause too: a rejected
name returns the error of the name check, a failed read or a failed
re-encoding returns that error under `AddStack`. -/
theorem success_iff_nochange_or_committed :
    (((ChangeConfig env name config skipConfirm s).err = none ↔
      ∃ newData newTopo origData,
        Compared env name config s newData newTopo origData ∧
        (origData = newData ∨
          ((skipConfirm = true ∨
              env.PromptForConfirmOrAbortError (env.HiYellowString confirmText) s = none) ∧
            (env.SaveMeta name ((env.meta name s).1.SetTopology newTopo) s).1 = none))) ∧
    (∀ m e, Event.saveMeta name m ∈ (ChangeConfig env name config skipConfirm s).trace →
      (env.SaveMeta name m s).1 = some e →
      (ChangeConfig env name config skipConfirm s).err
        = some (env.Annotate e "failed to save meta"))) ∧
    (∀ newData newTopo origData e,
      Compared env name config s newData newTopo origData →
      origData ≠ newData →
      (skipConfirm = true ∨
        env.PromptForConfirmOrAbortError (env.HiYellowString confirmText) s = none) →
      (env.SaveMeta name ((env.meta name s).1.SetTopology newTopo) s).1 = some e →
      (ChangeConfig env name config skipConfirm s).err
        = some (env.Annotate e "failed to save meta") ∧
      (ChangeConfig env name config skipConfirm s).world
        = (env.SaveMeta name ((env.meta name s).1.SetTopology newTopo) s).2) ∧
    (∀ e, env.ValidateClusterNameOrError name = some e →
      (ChangeConfig env name config skipConfirm s).err = some e) ∧
    (∀ e, Loaded env name s → env.ReadFile config s = .error e →
      (ChangeConfig env name config skipConfirm s).err = some (env.AddStack e)) ∧
    (∀ newData newTopo e, Parsed env name config s newData newTopo →
      env.ValidateSpecDiff (env.meta name s).1.GetTopology newTopo = none →
      env.Marshal (env.meta name s).1.GetTopology = .error e →
      (ChangeConfig env name config skipConfirm s).err = some (env.AddStack e)) := by
  refine ⟨?_, ?_, ?_, ?_, ?_⟩
  case refine_2 =>
    intro nd nt od e hcmp hne hpass he
    have h := run_commit env name config skipConfirm s hcmp hne hpass
    refine ⟨?_, h.1⟩
    rw [h.2.1, he]
    rfl
  case refine_3 =>
    intro e he
    simp [ChangeConfig, he]
  case refine_4 =>
    rintro e ⟨hname, hload⟩ hread
    simp [ChangeConfig, hname, hload, hread]
  case refine_5 =>
    rintro nd nt e ⟨⟨hname, hload⟩, hread, hdec⟩ hval henc
    simp [ChangeConfig, hname, hload, hread, hdec, hval, henc]
  by_cases hc : ∃ nd nt od, Compared env name config s nd nt od
  · obtain ⟨nd, nt, od, hc⟩ := hc
    have hex := exists_compared_iff env name config s hc (fun nd1 nt1 od1 =>
      od1 = nd1 ∨
        ((skipConfirm = true ∨
            env.PromptForConfirmOrAbortError (env.HiYellowString confirmText) s = none) ∧
          (env.SaveMeta name ((env.meta name s).1.SetTopology nt1) s).1 = none))
    refine ⟨Iff.trans ?_ hex.symm, ?_⟩
    · obtain ⟨⟨⟨hname, hload⟩, hread, hdec⟩, hval, henc⟩ := hc
      by_cases heq : od = nd
      · simp [ChangeConfig, hname, hload, hread, hdec, hval, henc, heq]
      · cases hsk : skipConfirm <;>
        cases hgate : env.PromptForConfirmOrAbortError (env.HiYellowString confirmText) s <;>
        rcases hsv : env.SaveMeta name ((env.meta name s).1.SetTopology nt) s
          with ⟨_ | e2, s2⟩ <;>
        simp [ChangeConfig, hname, hload, hread, hdec, hval, henc, heq, hgate, hsv]
    · obtain ⟨⟨⟨hname, hload⟩, hread, hdec⟩, hval, henc⟩ := hc
      intro m e hm he
      by_cases heq : od = nd
      · simp [ChangeConfig, hname, hload, hread, hdec, hval, henc, heq] at hm
      · cases hsk : skipConfirm <;>
        cases hgate : env.PromptForConfirmOrAbortError (env.HiYellowString confirmText) s <;>
        rcases hsv : env.SaveMeta name ((env.meta name s).1.SetTopology nt) s
          with ⟨_ | e2, s2⟩ <;>
        simp [ChangeConfig, hname, hload, hread, hdec, hval, henc, heq, hgate, hsv] at hm ⊢ <;>
        simp_all
  · have h := run_not_compared env name config skipConfirm s hc
    refine ⟨⟨fun h0 => absurd h0 h.1, ?_⟩, ?_⟩
    · rintro ⟨nd, nt, od, hcmp, _⟩
      exact absurd ⟨nd, nt, od, hcmp⟩ hc
    · intro m e hm _
      have hmem : Event.saveMeta name m
          ∈ commitSteps (ChangeConfig env name config skipConfirm s).trace :=
        List.mem_filter.mpr ⟨hm, by simp [Event.isSave]⟩
      rw [h.2.2.1] at hmem
      simp at hmem

/-- Witness of C9: with a store that refuses writes, a confirmed change returns
the save error annotated and the store keeps the old record; with a writable
store the same run succeeds. -/
theorem success_iff_nochange_or_committed_witness :
    (ChangeConfig demoEnv "c" "topo.yaml" false (demoWorldReadOnly [1, 3] true)).err
      = some (DemoErr.withMessage DemoErr.saveFailed "failed to save meta") ∧
    (ChangeConfig demoEnv "c" "topo.yaml" false (demoWorldReadOnly [1, 3] true)).world
      = demoWorldReadOnly [1, 3] true ∧
    (ChangeConfig demoEnv "c" "topo.yaml" false (demoWorld [1, 3] true)).err = none :=
  have h := (success_iff_nochange_or_committed demoEnv "c" "topo.yaml" false
    (demoWorldReadOnly [1, 3] true)).2.1 [1, 3] ⟨1, 3⟩ [1, 2] DemoErr.saveFailed
    ⟨⟨⟨rfl, rfl⟩, rfl, rfl⟩, rfl, rfl⟩ (by decide) (Or.inr rfl) rfl
  ⟨h.1, h.2,
   (success_iff_nochange_or_committed demoEnv "c" "topo.yaml" false
      (demoWorld [1, 3] true)).1.1.mpr
     ⟨[1, 3], ⟨1, 3⟩, [1, 2], ⟨⟨⟨rfl, rfl⟩, rfl, rfl⟩, rfl, rfl⟩, Or.inr ⟨Or.inr rfl, rfl⟩⟩⟩

/-- C4, as amended: every run loads the metadata at most once (once when the
cluster name is accepted) and calls Save at most once; Save is called exactly
when the run is `Compared`, the re-encoded original differs from the candidate
bytes, and the confirmation is skipped or the gate returns no error; a run that
does not call Save leaves the durable world as it was and never calls
SetTopology.  The call is a real write: under that condition the run applies
`SaveMeta` to the loaded record carrying the candidate topology, leaves the
world `SaveMeta` returns and returns its error annotated (nil when it returns
nil); when the condition fails the world is left as it was. -/
theorem load_once_save_iff_change_accepted :
    (calls Event.isLoad (ChangeConfig env name config skipConfirm s).trace ≤ 1 ∧
    (env.ValidateClusterNameOrError name = none →
      calls Event.isLoad (ChangeConfig env name config skipConfirm s).trace = 1) ∧
    calls Event.isSave (ChangeConfig env name config skipConfirm s).trace ≤ 1 ∧
    (calls Event.isSave (ChangeConfig env name config skipConfirm s).trace = 1 ↔
      ∃ newData newTopo origData,
        Compared env name config s newData newTopo origData ∧
        (origData ≠ newData ∧
          (skipConfirm = true ∨
            env.PromptForConfirmOrAbortError (env.HiYellowString confirmText) s = none))) ∧
    (calls Event.isSave (ChangeConfig env name config skipConfirm s).trace = 0 →
      (ChangeConfig env name config skipConfirm s).world = s ∧
      calls Event.isSetTopology (ChangeConfig env name config skipConfirm s).trace = 0)) ∧
    (∀ newData newTopo origData,
      Compared env name config s newData newTopo origData →
      origData ≠ newData →
      (skipConfirm = true ∨
        env.PromptForConfirmOrAbortError (env.HiYellowString confirmText) s = none) →
      (ChangeConfig env name config skipConfirm s).world
        = (env.SaveMeta name ((env.meta name s).1.SetTopology newTopo) s).2 ∧
      (ChangeConfig env name config skipConfirm s).err
        = (env.SaveMeta name ((env.meta name s).1.SetTopology newTopo) s).1.map
            (fun e => env.Annotate e "failed to save meta") ∧
      (ChangeConfig env name config skipConfirm s).metadata
        = some ((env.meta name s).1.SetTopology newTopo) ∧
      Event.saveMeta name ((env.meta name s).1.SetTopology newTopo)
        ∈ (ChangeConfig env name config skipConfirm s).trace) ∧
    ((¬ ∃ newData newTopo origData,
        Compared env name config s newData newTopo origData ∧
        (origData ≠ newData ∧
          (skipConfirm = true ∨
            env.PromptForConfirmOrAbortError (env.HiYellowString confirmText) s = none))) →
      (ChangeConfig env name config skipConfirm s).world = s ∧
      calls Event.isSave (ChangeConfig env name config skipConfirm s).trace = 0) := by
  refine ⟨?_, fun nd nt od hcmp hne hpass => run_commit env name config skipConfirm s hcmp hne hpass,
    ?_⟩
  case refine_2 =>
    intro hno
    by_cases hc : ∃ nd nt od, Compared env name config s nd nt od
    · obtain ⟨nd, nt, od, hc⟩ := hc
      have hno2 : ¬ (od ≠ nd ∧ (skipConfirm = true ∨
          env.PromptForConfirmOrAbortError (env.HiYellowString confirmText) s = none)) :=
        fun h => hno ⟨nd, nt, od, hc, h⟩
      obtain ⟨⟨⟨hname, hload⟩, hread, hdec⟩, hval, henc⟩ := hc
      by_cases heq : od = nd
      · simp [ChangeConfig, hname, hload, hread, hdec, hval, henc, heq, calls, Event.isSave]
      · cases hsk : skipConfirm <;>
        cases hgate : env.PromptForConfirmOrAbortError (env.HiYellowString confirmText) s <;>
        simp [heq, hsk, hgate] at hno2
        simp [ChangeConfig, hname, hload, hread, hdec, hval, henc, heq, hgate, calls,
          Event.isSave]
    · have h := run_not_compared env name config skipConfirm s hc
      exact ⟨h.2.1, h.2.2.2.2.2.2⟩
  by_cases hc : ∃ nd nt od, Compared env name config s nd nt od
  · obtain ⟨nd, nt, od, hc⟩ := hc
    rw [exists_compared_iff env name config s hc (fun nd1 _ od1 =>
      od1 ≠ nd1 ∧
        (skipConfirm = true ∨
          env.PromptForConfirmOrAbortError (env.HiYellowString confirmText) s = none))]
    obtain ⟨⟨⟨hname, hload⟩, hread, hdec⟩, hval, henc⟩ := hc
    by_cases heq : od = nd
    · simp [ChangeConfig, hname, hload, hread, hdec, hval, henc, heq, calls, Event.isLoad,
        Event.isSave, Event.isSetTopology]
    · cases hsk : skipConfirm <;>
      cases hgate : env.PromptForConfirmOrAbortError (env.HiYellowString confirmText) s <;>
      rcases hsv : env.SaveMeta name ((env.meta name s).1.SetTopology nt) s
        with ⟨_ | e2, s2⟩ <;>
      simp [ChangeConfig, hname, hload, hread, hdec, hval, henc, heq, hgate, hsv, calls,
        Event.isLoad, Event.isSave, Event.isSetTopology]
  · have h := run_not_compared env name config skipConfirm s hc
    refine ⟨h.2.2.2.2.1, h.2.2.2.2.2.1, by omega, ⟨fun h1 => ?_, ?_⟩, fun _ => ⟨h.2.1, h.2.2.2.1⟩⟩
    · omega
    · rintro ⟨nd, nt, od, hcmp, _⟩
      exact absurd ⟨nd, nt, od, hcmp⟩ hc

/-- Witness of C4, as amended: an operator who confirms a change of `conf` gets
it written (the store holds the candidate after one write); an operator who
declines leaves the world as it was. -/
theorem load_once_save_iff_change_accepted_witness :
    (ChangeConfig demoEnv "c" "topo.yaml" false (demoWorld [1, 3] true)).world
      = ⟨some ⟨⟨1, 3⟩, 7⟩, none, some [1, 3], true, true, 1⟩ ∧
    (ChangeConfig demoEnv "c" "topo.yaml" false (demoWorld [1, 3] true)).err = none ∧
    (ChangeConfig demoEnv "c" "topo.yaml" false (demoWorld [1, 3] false)).world
      = demoWorld [1, 3] false :=
  have h := (load_once_save_iff_change_accepted demoEnv "c" "topo.yaml" false
    (demoWorld [1, 3] true)).2.1 [1, 3] ⟨1, 3⟩ [1, 2]
    ⟨⟨⟨rfl, rfl⟩, rfl, rfl⟩, rfl, rfl⟩ (by decide) (Or.inr rfl)
  ⟨h.1, h.2.1,
   ((load_once_save_iff_change_accepted demoEnv "c" "topo.yaml" false
      (demoWorld [1, 3] false)).2.2
      (fun ⟨_, _, _, _, _, hp⟩ => hp.elim (by decide) (by decide))).1⟩

/-- Counterexample to C4 as stated: with skipConfirm=true and an operator who
would answer no, Save is called (and the store holds the candidate) although
the operator never confirms at the gate, so "Save is called only if the
operator confirms" fails; and with an empty cluster name, which the name check
rejects, the metadata is not loaded, so "loaded once" fails. -/
theorem save_without_operator_confirmation :
    ¬ (calls Event.isSave
          (ChangeConfig demoEnv "c" "topo.yaml" true (demoWorld [1, 3] false)).trace = 1 →
        calls Event.isPrompt
          (ChangeConfig demoEnv "c" "topo.yaml" true (demoWorld [1, 3] false)).trace = 1 ∧
        demoEnv.PromptForConfirmOrAbortError (demoEnv.HiYellowString confirmText)
          (demoWorld [1, 3] false) = none) ∧
    (ChangeConfig demoEnv "c" "topo.yaml" true (demoWorld [1, 3] false)).world.record
      = some ⟨⟨1, 3⟩, 7⟩ ∧
    ¬ calls Event.isLoad
        (ChangeConfig demoEnv "" "topo.yaml" true (demoWorld [1, 3] true)).trace = 1 := by
  decide

/-- C10: when the run is `Compared`, the decoded candidate encodes to the same
bytes as the original topology, but the raw candidate bytes differ from that
encoding, the run does not end in NoChange: the "nothing changed" line is not
logged, the diff of (re-encoded original, raw candidate) is rendered, the gate
is asked unless skipped, and when the confirmation is skipped or affirmative
Save is called once, with the loaded record carrying the decoded candidate,
a record whose topology encodes to the same bytes as the one it replaces.  The
gate and the store are really consulted: an error of the gate is returned as
is and the world is left alone, and otherwise the run leaves the world that
`SaveMeta` returns and returns the error of `SaveMeta` annotated (nil when it
returns nil). -/
theorem formatting_difference_is_a_change (newData : Bytes) (newTopo : T) (origData : Bytes)
    (hcmp : Compared env name config s newData newTopo origData)
    (hcanon : env.Marshal newTopo = .ok origData)
    (hraw : origData ≠ newData) :
    Event.logInfof "The file has nothing changed" []
      ∉ (ChangeConfig env name config skipConfirm s).trace ∧
    Event.showDiff origData newData ∈ (ChangeConfig env name config skipConfirm s).trace ∧
    calls Event.isPrompt (ChangeConfig env name config skipConfirm s).trace
      = (if skipConfirm then 0 else 1) ∧
    ((skipConfirm = true ∨
        env.PromptForConfirmOrAbortError (env.HiYellowString confirmText) s = none) →
      calls Event.isSave (ChangeConfig env name config skipConfirm s).trace = 1 ∧
      Event.saveMeta name ((env.meta name s).1.SetTopology newTopo)
        ∈ (ChangeConfig env name config skipConfirm s).trace ∧
      env.Marshal ((env.meta name s).1.SetTopology newTopo).GetTopology
        = env.Marshal (env.meta name s).1.GetTopology ∧
      (ChangeConfig env name config skipConfirm s).world
        = (env.SaveMeta name ((env.meta name s).1.SetTopology newTopo) s).2 ∧
      (ChangeConfig env name config skipConfirm s).err
        = (env.SaveMeta name ((env.meta name s).1.SetTopology newTopo) s).1.map
            (fun e => env.Annotate e "failed to save meta")) ∧
    (skipConfirm = false →
      ∀ e, env.PromptForConfirmOrAbortError (env.HiYellowString confirmText) s = some e →
        (ChangeConfig env name config skipConfirm s).err = some e ∧
        (ChangeConfig env name config skipConfirm s).world = s) := by
  obtain ⟨⟨⟨hname, hload⟩, hread, hdec⟩, hval, henc⟩ := hcmp
  have hsame : env.Marshal ((env.meta name s).1.SetTopology newTopo).GetTopology
      = env.Marshal (env.meta name s).1.GetTopology := by
    rw [henc, ← hcanon]
    rfl
  cases hsk : skipConfirm <;>
  cases hgate : env.PromptForConfirmOrAbortError (env.HiYellowString confirmText) s <;>
  rcases hsv : env.SaveMeta name ((env.meta name s).1.SetTopology newTopo) s
    with ⟨_ | e2, s2⟩ <;>
  simp [ChangeConfig, hname, hload, hread, hdec, hval, henc, hraw, hgate, hsv, calls,
    Event.isPrompt, Event.isSave, appliedFmt, hsame]

/-- Witness of C10: the candidate file is the canonical encoding of the stored
topology followed by a line feed; it decodes to the stored topology, yet the
run renders a diff and, with skipConfirm=true, saves: the store has accepted
one write.  With skipConfirm=false and an operator who answers no, the same
file ends in the cancellation error and no write. -/
theorem formatting_difference_is_a_change_witness :
    Compared demoEnv "c" "topo.yaml" (demoWorld [1, 2, 10] false) [1, 2, 10] ⟨1, 2⟩ [1, 2] ∧
    demoEnv.Marshal (⟨1, 2⟩ : DemoTopo) = .ok [1, 2] ∧
    Event.showDiff [1, 2] [1, 2, 10]
      ∈ (ChangeConfig demoEnv "c" "topo.yaml" true (demoWorld [1, 2, 10] false)).trace ∧
    calls Event.isSave
      (ChangeConfig demoEnv "c" "topo.yaml" true (demoWorld [1, 2, 10] false)).trace = 1 ∧
    (ChangeConfig demoEnv "c" "topo.yaml" true (demoWorld [1, 2, 10] false)).world
      = ⟨some ⟨⟨1, 2⟩, 7⟩, none, some [1, 2, 10], false, true, 1⟩ ∧
    (ChangeConfig demoEnv "c" "topo.yaml" true (demoWorld [1, 2, 10] false)).err = none ∧
    (ChangeConfig demoEnv "c" "topo.yaml" false (demoWorld [1, 2, 10] false)).err
      = some DemoErr.aborted ∧
    (ChangeConfig demoEnv "c" "topo.yaml" false (demoWorld [1, 2, 10] false)).world
      = demoWorld [1, 2, 10] false :=
  have h := formatting_difference_is_a_change demoEnv "c" "topo.yaml" true
    (demoWorld [1, 2, 10] false) [1, 2, 10] ⟨1, 2⟩ [1, 2]
    ⟨⟨⟨rfl, rfl⟩, rfl, rfl⟩, rfl, rfl⟩ rfl (by decide)
  have h2 := (formatting_difference_is_a_change demoEnv "c" "topo.yaml" false
    (demoWorld [1, 2, 10] false) [1, 2, 10] ⟨1, 2⟩ [1, 2]
    ⟨⟨⟨rfl, rfl⟩, rfl, rfl⟩, rfl, rfl⟩ rfl (by decide)).2.2.2.2 rfl DemoErr.aborted rfl
  ⟨⟨⟨⟨rfl, rfl⟩, rfl, rfl⟩, rfl, rfl⟩, rfl, h.2.1, (h.2.2.2.1 (Or.inl rfl)).1,
    (h.2.2.2.1 (Or.inl rfl)).2.2.2.1, (h.2.2.2.1 (Or.inl rfl)).2.2.2.2, h2.1, h2.2⟩

end Theorems

end Manager
